import Mathlib

/-!
Verification of the nixicon project-management platform core
(project lifecycle, communication thread, avatar and feature suggestion),
shallowly embedded from the route handlers in src/.

Conventions of the embedding:
* Object identifiers and timestamps are natural numbers.
* Each route handler becomes a pure function from the acting user, the
  affected project and the request data to the resulting stored project
  state, paired with an optional error outcome; on an error outcome the
  returned project equals the input project, mirroring the handlers,
  which return before any mutation on every error path.
* The Mongoose models (models/Project.js, models/User.js) and the auth
  middleware (middleware/auth.js) are required by the routes but are not
  part of the visible sources; the definitions taken from the
  specification instead are marked in their doc comments.
-/

/-- Roles of a user, data model section 3. -/
inductive Role where
  | user
  | developer
  | admin
deriving DecidableEq, Repr

/-- Project status values accepted by PUT /api/admin/projects/:id/status
(src/routes/auth.js line 617). -/
inductive Status where
  | draft
  | prototype
  | inDevelopment
  | testing
  | deployed
  | cancelled
deriving DecidableEq, Repr

/-- String form of a status as it appears in request bodies and in
communication content interpolation. -/
def Status.str : Status → String
  | .draft => "draft"
  | .prototype => "prototype"
  | .inDevelopment => "in-development"
  | .testing => "testing"
  | .deployed => "deployed"
  | .cancelled => "cancelled"

/-- Communication entry types validated in src/routes/projects.js line 207. -/
inductive CommType where
  | message
  | file
  | milestone
  | statusUpdate
deriving DecidableEq, Repr

/-- Read receipt: an element of the readBy array of a communication entry
(pushed in src/routes/chat.js lines 168-171). -/
structure ReadReceipt where
  user : Nat
  readAt : Nat
deriving DecidableEq, Repr

/-- One entry of the communication thread embedded in a project. -/
structure Entry where
  id : Nat
  type : CommType
  content : String
  author : Nat
  timestamp : Nat
  attachments : List Nat
  readBy : List ReadReceipt
deriving DecidableEq, Repr

/-- A project feature as produced by generateFeatures in
src/routes/projects.js lines 297-433. -/
structure Feature where
  name : String
  description : String
  complexity : String
  estimatedHours : Nat
deriving DecidableEq, Repr

/-- Timeline subdocument of a project; the status route writes
timeline.actualEnd (src/routes/auth.js line 650). -/
structure Timeline where
  plannedStart : Option Nat
  plannedEnd : Option Nat
  actualStart : Option Nat
  actualEnd : Option Nat
deriving DecidableEq, Repr

/-- Budget subdocument; confirm-payment writes budget.actual
(src/api/payments.js line 134). Amounts are kept in whole currency units. -/
structure Budget where
  planned : Option Nat
  actual : Option Nat
deriving DecidableEq, Repr

/-- The project document, data model section 3 plus the fields the
handlers touch. -/
structure Project where
  id : Nat
  owner : Nat
  assignedDeveloper : Option Nat
  title : String
  description : String
  category : String
  platform : Option String
  status : Status
  features : List Feature
  design : Option String
  technical : Option String
  timeline : Timeline
  budget : Budget
  communication : List Entry
deriving DecidableEq, Repr

/-- The acting authenticated user as seen by a handler: req.userId,
req.user.role and req.user.name. -/
structure Actor where
  id : Nat
  role : Role
  name : String
deriving DecidableEq, Repr

/-- Error outcomes a handler can report instead of mutating. -/
inductive Err where
  | accessDenied
  | notFound
  | validationFailed
  | paymentNotCompleted
deriving DecidableEq, Repr

/-- A fresh identity for a new communication entry: one more than every
identity already present in the thread. -/
def freshEntryId (l : List Entry) : Nat :=
  l.foldr (fun e m => max (e.id + 1) m) 0

/-- Modelled from the spec: the addCommunication method of
models/Project.js, which is not under src/ (its callers are). Section 4.2
describes appendCommunication as appending a new entry with a fresh
identity and the current timestamp, the single mutation path for the
thread. Content validation is performed by the route layer before the
call, so the model takes already-validated content. -/
def addCommunication (p : Project) (ty : CommType) (content : String)
    (author : Nat) (attachments : List Nat) (now : Nat) : Project :=
  { p with communication := p.communication ++
      [{ id := freshEntryId p.communication, type := ty, content := content,
         author := author, timestamp := now, attachments := attachments,
         readBy := [] }] }

/-- Modelled from the spec: the developerAuth middleware of
middleware/auth.js, which is not under src/. The status route is
documented Private (Admin/Developer), and section 4.3 reserves status
changes to admins and developers, so the middleware admits exactly the
developer and admin roles. -/
def developerAuth (a : Actor) : Bool :=
  a.role = Role.developer || a.role = Role.admin

/-- Modelled from the spec: the adminAuth middleware of
middleware/auth.js, which is not under src/. Admin routes are documented
Private (Admin), and section 4.3 has canAssignDeveloper(actor) =
actor.role == admin, so the middleware admits exactly the admin role. -/
def adminAuth (a : Actor) : Bool :=
  a.role = Role.admin

/-- Content string built by the status route,
src/routes/auth.js line 657. -/
def statusContent (s : Status) (notes : Option String) : String :=
  "Status updated to " ++ s.str ++
    (match notes with
     | some n => ": " ++ n
     | none => "")

/-- PUT /api/admin/projects/:id/status, src/routes/auth.js lines 616-681:
after the developerAuth middleware, the handler looks the project up under
the filter assignedDeveloper == req.userId OR role == admin, returns 404
on no match, otherwise sets the status, sets timeline.actualEnd when the
new status is deployed, saves, and appends one status-update entry
authored by the acting user. Returns the resulting stored project and an
optional error; on error the project is returned unchanged because the
handler returns before mutating. -/
def updateStatus (actor : Actor) (p : Project) (newStatus : Status)
    (notes : Option String) (now : Nat) : Project × Option Err :=
  if ¬ developerAuth actor then
    (p, some Err.accessDenied)
  else if ¬ (p.assignedDeveloper = some actor.id ∨ actor.role = Role.admin) then
    (p, some Err.notFound)
  else
    let p1 : Project :=
      { p with
        status := newStatus,
        timeline :=
          if newStatus = Status.deployed then
            { p.timeline with actualEnd := some now }
          else p.timeline }
    (addCommunication p1 CommType.statusUpdate (statusContent newStatus notes)
        actor.id [] now, none)

/-- PUT /api/admin/projects/:id/assign, src/routes/auth.js lines 540-611:
after the adminAuth middleware, the handler verifies the target user has
the developer role (400 otherwise), then sets assignedDeveloper and
status = in-development on the project and appends one status-update
entry authored by the acting admin. -/
def assignDeveloper (actor : Actor) (p : Project) (developer : Actor)
    (now : Nat) : Project × Option Err :=
  if ¬ adminAuth actor then
    (p, some Err.accessDenied)
  else if ¬ (developer.role = Role.developer) then
    (p, some Err.validationFailed)
  else
    let p1 : Project :=
      { p with
        assignedDeveloper := some developer.id,
        status := Status.inDevelopment }
    (addCommunication p1 CommType.statusUpdate
        ("Project assigned to " ++ developer.name) actor.id [] now, none)

/-- POST /api/payments/confirm-payment, src/api/payments.js lines 94-157:
the handler retrieves the payment intent, rejects when its status is not
succeeded, looks the project up under owner == req.userId (404 on no
match), then sets budget.actual from the paid amount and status =
prototype, saves, and appends one status-update entry authored by the
acting user. -/
def confirmPayment (actor : Actor) (p : Project) (intentStatus : String)
    (amount : Nat) (now : Nat) : Project × Option Err :=
  if ¬ (intentStatus = "succeeded") then
    (p, some Err.paymentNotCompleted)
  else if ¬ (p.owner = actor.id) then
    (p, some Err.notFound)
  else
    let p1 : Project :=
      { p with
        budget := { p.budget with actual := some amount },
        status := Status.prototype }
    (addCommunication p1 CommType.statusUpdate
        ("Payment of $" ++ toString amount ++
          " confirmed. Project moved to prototype phase.") actor.id [] now,
      none)

/-- Request body of PUT /api/projects/:id. The handler reads only the
nine allow-listed fields; the remaining fields model values a caller may
supply for paths the handler never reads. -/
structure UpdateBody where
  title : Option String
  description : Option String
  category : Option String
  platform : Option (Option String)
  features : Option (List Feature)
  design : Option (Option String)
  technical : Option (Option String)
  timeline : Option Timeline
  budget : Option Budget
  status : Option Status
  owner : Option Nat
  assignedDeveloper : Option (Option Nat)
  communication : Option (List Entry)
deriving DecidableEq, Repr

/-- PUT /api/projects/:id, src/routes/projects.js lines 130-169: the
handler looks the project up under owner == req.userId (404 on no match),
then copies each of the nine allow-listed fields from the body when
present and saves. Fields outside the allow list are never read. -/
def updateProjectFields (actor : Actor) (p : Project) (b : UpdateBody) :
    Project × Option Err :=
  if ¬ (p.owner = actor.id) then
    (p, some Err.notFound)
  else
    ({ p with
        title := b.title.getD p.title,
        description := b.description.getD p.description,
        category := b.category.getD p.category,
        platform := b.platform.getD p.platform,
        features := b.features.getD p.features,
        design := b.design.getD p.design,
        technical := b.technical.getD p.technical,
        timeline := b.timeline.getD p.timeline,
        budget := b.budget.getD p.budget }, none)

/-- Request body of POST /api/projects. The handler builds the new
document as a spread of the entire body with owner overridden
(src/routes/projects.js lines 98-101), so every project field the body
supplies reaches the stored document; only title, description and
category are validated, and they are required here because the handler
rejects the request without them. A supplied owner is modelled too: the
spread places the acting user after it, so it is always overridden. -/
structure CreateBody where
  title : String
  description : String
  category : String
  owner : Option Nat
  assignedDeveloper : Option (Option Nat)
  platform : Option (Option String)
  status : Option Status
  features : Option (List Feature)
  design : Option (Option String)
  technical : Option (Option String)
  timeline : Option Timeline
  budget : Option Budget
  communication : Option (List Entry)
deriving DecidableEq, Repr

/-- POST /api/projects, src/routes/projects.js lines 83-125: the handler
spreads the whole request body into the new document, overrides owner
with the acting user, saves, and then appends one status-update entry
with content Project created successfully. Fields the body does not
supply fall back to the schema defaults, which are modelled from the
spec because models/Project.js is not under src/: section 4.1 fixes the
default status to draft, and section 3 states thread entries are created
only through the append operation, so the default thread is empty and
there is no default assigned developer. -/
def createProject (actor : Actor) (pid : Nat) (b : CreateBody)
    (now : Nat) : Project :=
  let p : Project :=
    { id := pid, owner := actor.id,
      assignedDeveloper := b.assignedDeveloper.getD none,
      title := b.title, description := b.description, category := b.category,
      platform := b.platform.getD none,
      status := b.status.getD Status.draft,
      features := b.features.getD [],
      design := b.design.getD none, technical := b.technical.getD none,
      timeline := b.timeline.getD ⟨none, none, none, none⟩,
      budget := b.budget.getD ⟨none, none⟩,
      communication := b.communication.getD [] }
  addCommunication p CommType.statusUpdate "Project created successfully"
    actor.id [] now

/-- Order given to the sort in src/routes/chat.js line 35 by the
comparator (a, b) => new Date(b.timestamp) - new Date(a.timestamp):
a precedes b in the sorted output exactly when the timestamp of a is at
least the timestamp of b. -/
def descByTimestamp (a b : Entry) : Prop :=
  b.timestamp ≤ a.timestamp

instance : DecidableRel descByTimestamp :=
  fun a b => Nat.decLe b.timestamp a.timestamp

instance : IsTotal Entry descByTimestamp :=
  ⟨fun a b => (Nat.le_total b.timestamp a.timestamp)⟩

instance : IsTrans Entry descByTimestamp :=
  ⟨fun _ _ _ hab hbc => Nat.le_trans hbc hab⟩

/-- GET /api/chat/projects/:projectId/messages, src/routes/chat.js lines
11-62: the handler looks the project up under owner == req.userId OR
assignedDeveloper == req.userId (404 on no match), filters the thread to
entries of type message, sorts by timestamp descending, slices the
requested page and reverses it. Pages are numbered from 1. The
JavaScript sort is stable, and the output of a stable sort under a total
transitive comparator is unique, so the stable List.insertionSort models
it exactly. -/
def listMessages (viewer : Actor) (p : Project) (page limit : Nat) :
    Except Err (List Entry) :=
  if ¬ (p.owner = viewer.id ∨ p.assignedDeveloper = some viewer.id) then
    Except.error Err.notFound
  else
    Except.ok
      ((((p.communication.filter fun e => e.type = CommType.message).insertionSort
          descByTimestamp).drop ((page - 1) * limit) |>.take limit).reverse)

/-- Replacement of the first entry with a given identity in a thread,
modelling the Mongoose subdocument lookup communication.id(messageId)
followed by in-place mutation (src/routes/chat.js lines 154-172). -/
def updateEntry (l : List Entry) (mid : Nat) (f : Entry → Entry) :
    List Entry :=
  match l with
  | [] => []
  | e :: rest =>
    if e.id = mid then f e :: rest else e :: updateEntry rest mid f

/-- PUT /api/chat/projects/:projectId/messages/:messageId/read,
src/routes/chat.js lines 133-186: the handler looks the project up under
owner == req.userId OR assignedDeveloper == req.userId (404 on no match),
finds the entry by identity (404 when absent), and unless the acting user
already appears in readBy pushes one new read receipt with the current
time; when the user already appears nothing changes and the call still
succeeds. -/
def markRead (actor : Actor) (p : Project) (mid : Nat) (now : Nat) :
    Project × Option Err :=
  if ¬ (p.owner = actor.id ∨ p.assignedDeveloper = some actor.id) then
    (p, some Err.notFound)
  else
    match p.communication.find? fun e => e.id = mid with
    | none => (p, some Err.notFound)
    | some msg =>
      if msg.readBy.any fun r => r.user = actor.id then
        (p, none)
      else
        ({ p with communication := updateEntry p.communication mid fun e =>
            { e with readBy := e.readBy ++ [⟨actor.id, now⟩] } }, none)

/-- Count of message-type entries the viewer has not read, computed per
project by GET /api/chat/conversations, src/routes/chat.js lines 206-213. -/
def unreadCount (viewer : Actor) (p : Project) : Nat :=
  ((p.communication.filter fun e => e.type = CommType.message).filter
    fun e => ¬ e.readBy.any fun r => r.user = viewer.id).length

/-- Reduction of an integer to the signed 32-bit value JavaScript bitwise
operators work on. -/
def toInt32 (n : Int) : Int :=
  let m := n % 4294967296
  if m < 2147483648 then m else m - 4294967296

/-- Whitespace removal at both ends of a character sequence, the
semantics of the JavaScript String.prototype.trim (all names in scope are
ASCII, where the two whitespace notions agree). -/
def jsTrim (l : List Char) : List Char :=
  ((l.dropWhile Char.isWhitespace).reverse.dropWhile Char.isWhitespace).reverse

/-- Split of a character sequence at every single space character, the
semantics of the JavaScript split with separator a one-space string:
the empty sequence yields one empty token, and consecutive spaces yield
empty tokens between them. -/
def jsSplitSpace (l : List Char) : List (List Char) :=
  l.foldr
    (fun c acc =>
      if c = ' ' then [] :: acc
      else
        match acc with
        | [] => [[c]]
        | t :: rest => (c :: t) :: rest)
    [[]]

/-- Character-wise uppercasing, the JavaScript toUpperCase on ASCII. -/
def jsToUpper (l : List Char) : List Char :=
  l.map Char.toUpper

/-- Character-wise lowercasing, the JavaScript toLowerCase on ASCII. -/
def jsToLower (l : List Char) : List Char :=
  l.map Char.toLower

/-- Rolling hash of src/routes/auth.js lines 28-31: for each character,
hash = charCode + ((hash << 5) - hash), where the shift coerces to signed
32-bit and the rest is exact arithmetic. -/
def nameHash (name : String) : Int :=
  name.data.foldl (fun h c => (c.toNat : Int) + (toInt32 (toInt32 h * 32) - h)) 0

/-- Palette of src/routes/auth.js line 27. -/
def avatarColors : List String :=
  ["#8b5cf6", "#3b82f6", "#10b981", "#f59e0b", "#ef4444", "#6366f1",
   "#ec4899", "#14b8a6"]

/-- Initials of src/routes/auth.js lines 23-25: with at least two
space-separated tokens in the trimmed name, the first character of the
first token followed by the first character of the last token, uppercased;
otherwise the first two characters of the trimmed name, uppercased. -/
def avatarInitials (name : String) : String :=
  let t := jsTrim name.data
  let parts := jsSplitSpace t
  if 2 ≤ parts.length then
    ⟨jsToUpper ((parts.headD []).take 1 ++ (parts.getLastD []).take 1)⟩
  else
    ⟨jsToUpper (t.take 2)⟩

/-- The deterministic core of the avatar: the initials and the background
color the embedded image renders. -/
structure Avatar where
  initials : String
  color : String
deriving DecidableEq, Repr

/-- generateAvatarDataUrl, src/routes/auth.js lines 20-40, restricted to
the data the image embeds: null on an empty name, otherwise the initials
and the palette color selected by the absolute value of the rolling hash
modulo the palette size. -/
def generateAvatarDataUrl (name : String) : Option Avatar :=
  if name = "" then none
  else
    some { initials := avatarInitials name,
           color := avatarColors.getD ((nameHash name).natAbs % avatarColors.length) "" }

/-- Substring occurrence over character lists, the semantics of the
JavaScript String.prototype.includes used by generateFeatures. -/
def includesAux (needle : List Char) : List Char → Bool
  | [] => needle.isEmpty
  | c :: t => needle.isPrefixOf (c :: t) || includesAux needle t

/-- JavaScript hay.includes(needle) with the haystack already expanded
into its character sequence. -/
def jsIncludes (hay : List Char) (needle : String) : Bool :=
  includesAux needle.data hay

/-- Fixed feature emitted for the user, login and signup keywords,
src/routes/projects.js lines 302-307. -/
def authFeature : Feature :=
  { name := "User Authentication",
    description := "Secure sign up, login, and password reset with email verification",
    complexity := "medium", estimatedHours := 12 }

/-- Fixed feature emitted for the dashboard, home and main keywords,
src/routes/projects.js lines 311-316. -/
def dashboardFeature : Feature :=
  { name := "User Dashboard",
    description := "Personalized dashboard with overview, stats, and quick actions",
    complexity := "complex", estimatedHours := 20 }

/-- Fixed feature emitted for the profile and settings keywords,
src/routes/projects.js lines 320-325. -/
def profileFeature : Feature :=
  { name := "User Profile & Settings",
    description := "Edit profile information, preferences, and app settings",
    complexity := "simple", estimatedHours := 8 }

/-- Fixed feature emitted for the notification and alert keywords,
src/routes/projects.js lines 331-336. -/
def notificationsFeature : Feature :=
  { name := "Push Notifications",
    description := "Real-time notifications for important updates and events",
    complexity := "medium", estimatedHours := 10 }

/-- Fixed feature emitted for the search and filter keywords,
src/routes/projects.js lines 340-345. -/
def searchFeature : Feature :=
  { name := "Search & Filter",
    description := "Advanced search with filters and sorting options",
    complexity := "medium", estimatedHours := 12 }

/-- Fixed commerce features, src/routes/projects.js lines 350-369. -/
def cartFeature : Feature :=
  { name := "Shopping Cart",
    description := "Add, remove, and manage items in cart with persistence",
    complexity := "medium", estimatedHours := 14 }

/-- Second fixed commerce feature, src/routes/projects.js lines 357-362. -/
def checkoutFeature : Feature :=
  { name := "Checkout & Payment",
    description := "Secure payment processing with multiple payment methods",
    complexity := "complex", estimatedHours := 24 }

/-- Third fixed commerce feature, src/routes/projects.js lines 364-369. -/
def orderFeature : Feature :=
  { name := "Order Management",
    description := "Track orders, view order history, and order details",
    complexity := "medium", estimatedHours := 16 }

/-- Fixed social features, src/routes/projects.js lines 373-385. -/
def socialFeedFeature : Feature :=
  { name := "Social Feed",
    description := "Interactive feed with posts, comments, and reactions",
    complexity := "complex", estimatedHours := 30 }

/-- Second fixed social feature, src/routes/projects.js lines 380-385. -/
def interactionsFeature : Feature :=
  { name := "User Interactions",
    description := "Like, comment, share, and follow functionality",
    complexity := "medium", estimatedHours := 18 }

/-- Fixed feature emitted for the messaging and chat keywords,
src/routes/projects.js lines 389-394. -/
def chatFeature : Feature :=
  { name := "Real-time Chat",
    description := "One-on-one and group messaging with real-time updates",
    complexity := "complex", estimatedHours := 28 }

/-- Fixed feature emitted for the map, location and nearby keywords,
src/routes/projects.js lines 398-403. -/
def locationFeature : Feature :=
  { name := "Location Services",
    description := "GPS integration, maps, and location-based features",
    complexity := "complex", estimatedHours := 22 }

/-- Fixed feature emitted for the camera, photo and upload keywords,
src/routes/projects.js lines 407-412. -/
def mediaFeature : Feature :=
  { name := "Media Upload",
    description := "Upload and manage photos, videos, and documents",
    complexity := "medium", estimatedHours := 16 }

/-- First fixed fallback feature, src/routes/projects.js lines 417-422. -/
def basicDashboardFeature : Feature :=
  { name := "Basic Dashboard",
    description := "Overview page with key metrics and recent activity",
    complexity := "medium", estimatedHours := 12 }

/-- Second fixed fallback feature, src/routes/projects.js lines 424-429. -/
def userManagementFeature : Feature :=
  { name := "User Management",
    description := "Create, update, and manage user accounts",
    complexity := "medium", estimatedHours := 10 }

/-- generateFeatures, src/routes/projects.js lines 294-435: scans the
lowercased prompt for keyword groups in a fixed order, appending the fixed
feature records of each matched group; some groups are gated on the
project category; when nothing matched, returns the fixed fallback pair. -/
def generateFeatures (prompt category : String) : List Feature :=
  let pl := jsToLower prompt.data
  let fs : List Feature := []
  let fs := if jsIncludes pl "user" || jsIncludes pl "login" ||
      jsIncludes pl "signup" then fs ++ [authFeature] else fs
  let fs := if jsIncludes pl "dashboard" || jsIncludes pl "home" ||
      jsIncludes pl "main" then fs ++ [dashboardFeature] else fs
  let fs := if jsIncludes pl "profile" || jsIncludes pl "settings" then
      fs ++ [profileFeature] else fs
  let fs := if category = "mobile-app" || category = "web-app" then
      let fs := if jsIncludes pl "notification" || jsIncludes pl "alert" then
          fs ++ [notificationsFeature] else fs
      if jsIncludes pl "search" || jsIncludes pl "filter" then
          fs ++ [searchFeature] else fs
    else fs
  let fs := if category = "e-commerce" || jsIncludes pl "cart" ||
      jsIncludes pl "checkout" then
      fs ++ [cartFeature, checkoutFeature, orderFeature] else fs
  let fs := if jsIncludes pl "social" || jsIncludes pl "share" ||
      jsIncludes pl "comment" then
      fs ++ [socialFeedFeature, interactionsFeature] else fs
  let fs := if jsIncludes pl "messaging" || jsIncludes pl "chat" then
      fs ++ [chatFeature] else fs
  let fs := if jsIncludes pl "map" || jsIncludes pl "location" ||
      jsIncludes pl "nearby" then fs ++ [locationFeature] else fs
  let fs := if jsIncludes pl "camera" || jsIncludes pl "photo" ||
      jsIncludes pl "upload" then fs ++ [mediaFeature] else fs
  if fs.isEmpty then [basicDashboardFeature, userManagementFeature] else fs

/-- Sample project used to instantiate the theorems: owned by user 7,
assigned to developer 5, still in draft. -/
def pDemo : Project :=
  { id := 1, owner := 7, assignedDeveloper := some 5, title := "Shop",
    description := "A small shop", category := "web-app", platform := none,
    status := Status.draft, features := [], design := none,
    technical := none, timeline := ⟨some 1, some 9, some 2, none⟩,
    budget := ⟨some 100, none⟩, communication := [] }

/-- The owner of pDemo, an ordinary user. -/
def ownerDemo : Actor := ⟨7, Role.user, "Olive"⟩

/-- An admin. -/
def adminDemo : Actor := ⟨1, Role.admin, "Ann"⟩

/-- A developer who is not assigned to pDemo. -/
def strangerDemo : Actor := ⟨9, Role.developer, "Dana"⟩

/-- A deployed copy of pDemo. -/
def pDeployedDemo : Project := { pDemo with id := 2, status := Status.deployed }

/-- Claim C1, counterexample: the owner of pDemo, an ordinary user who is
not the assigned developer, changes the project status from draft to
prototype through payment confirmation, refuting the claim that no actor
besides an admin or the assigned developer can cause a status change
through any operation. -/
theorem C1_counterexample :
    (confirmPayment ownerDemo pDemo "succeeded" 500 99).2 = none ∧
    (confirmPayment ownerDemo pDemo "succeeded" 500 99).1.status ≠ pDemo.status ∧
    ownerDemo.role ≠ Role.admin ∧
    pDemo.assignedDeveloper ≠ some ownerDemo.id := by
  decide

/-- Claim C1, amended: the status-update operation changes status only
for an admin or the assigned developer, and developer assignment changes
status only for an admin; but payment confirmation changes status exactly
when the actor is the owner of the project. -/
theorem C1_theorem :
    (∀ a p s notes now, (updateStatus a p s notes now).1.status ≠ p.status →
      (a.role = Role.admin ∨ p.assignedDeveloper = some a.id)) ∧
    (∀ a p dev now, (assignDeveloper a p dev now).1.status ≠ p.status →
      a.role = Role.admin) ∧
    (∀ a p st amt now, (confirmPayment a p st amt now).1.status ≠ p.status →
      p.owner = a.id) := by
  refine ⟨?_, ?_, ?_⟩
  · intro a p s notes now hne
    unfold updateStatus at hne
    split_ifs at hne with h1 h2 h3
    all_goals try exact absurd rfl hne
    all_goals tauto
  · intro a p dev now hne
    unfold assignDeveloper at hne
    split_ifs at hne with h1 h2
    all_goals try exact absurd rfl hne
    all_goals simpa [adminAuth] using h1
  · intro a p st amt now hne
    unfold confirmPayment at hne
    split_ifs at hne with h1 h2
    all_goals try exact absurd rfl hne
    all_goals tauto

/-- Claim C1, witness: the amended theorem applied at the counterexample
input identifies the owner as the actor behind the payment-driven status
change. -/
theorem C1_witness : pDemo.owner = ownerDemo.id :=
  C1_theorem.2.2 ownerDemo pDemo "succeeded" 500 99 (by decide)

/-- Claim C3: a status-transition request by an actor who is neither an
admin nor the assigned developer leaves the project entirely unchanged
and reports an access-denied outcome, either from the middleware or as
the not-found answer the route gives when its lookup filter excludes the
project. -/
theorem C3_theorem :
    ∀ a p s notes now,
      ¬ (a.role = Role.admin ∨ p.assignedDeveloper = some a.id) →
      (updateStatus a p s notes now).1 = p ∧
      ((updateStatus a p s notes now).2 = some Err.accessDenied ∨
       (updateStatus a p s notes now).2 = some Err.notFound) := by
  intro a p s notes now hdenied
  unfold updateStatus
  split_ifs with h1 h2
  all_goals first
    | exact ⟨rfl, Or.inl rfl⟩
    | exact ⟨rfl, Or.inr rfl⟩
    | exact absurd (Or.symm h2) hdenied

/-- Claim C3, witness: a developer who is not assigned to pDemo cannot
move it to testing; the project is unchanged and the outcome is an
access-denied one. -/
theorem C3_witness :
    (updateStatus strangerDemo pDemo Status.testing none 7).1 = pDemo ∧
    ((updateStatus strangerDemo pDemo Status.testing none 7).2 = some Err.accessDenied ∨
     (updateStatus strangerDemo pDemo Status.testing none 7).2 = some Err.notFound) :=
  C3_theorem strangerDemo pDemo Status.testing none 7 (by decide)

/-- Claim C4, counterexample: an admin moves the deployed project
pDeployedDemo back to testing through the status route, refuting the
claim that deployed is terminal. -/
theorem C4_counterexample :
    pDeployedDemo.status = Status.deployed ∧
    (updateStatus adminDemo pDeployedDemo Status.testing none 50).2 = none ∧
    (updateStatus adminDemo pDeployedDemo Status.testing none 50).1.status = Status.testing := by
  decide

/-- Claim C4, amended: no operation restricts transitions on the current
status, so deployed and cancelled are not terminal: a successful status
update stores whatever status was requested, developer assignment always
stores in-development, payment confirmation always stores prototype, and
only the owner field-update operation leaves status unchanged. -/
theorem C4_theorem :
    (∀ a p s notes now, (updateStatus a p s notes now).2 = none →
      (updateStatus a p s notes now).1.status = s) ∧
    (∀ a p dev now, (assignDeveloper a p dev now).2 = none →
      (assignDeveloper a p dev now).1.status = Status.inDevelopment) ∧
    (∀ a p st amt now, (confirmPayment a p st amt now).2 = none →
      (confirmPayment a p st amt now).1.status = Status.prototype) ∧
    (∀ a p b, (updateProjectFields a p b).1.status = p.status) := by
  refine ⟨?_, ?_, ?_, ?_⟩
  · intro a p s notes now hok
    unfold updateStatus at hok ⊢
    split_ifs at hok ⊢ with h1 h2 h3
    all_goals rfl
  · intro a p dev now hok
    unfold assignDeveloper at hok ⊢
    split_ifs at hok ⊢ with h1 h2
    all_goals rfl
  · intro a p st amt now hok
    unfold confirmPayment at hok ⊢
    split_ifs at hok ⊢ with h1 h2
    all_goals rfl
  · intro a p b
    unfold updateProjectFields
    split_ifs with h1 <;> rfl

/-- Claim C4, witness: the amended theorem applied at the counterexample
input: the deployed project ends up in testing. -/
theorem C4_witness :
    (updateStatus adminDemo pDeployedDemo Status.testing none 50).1.status = Status.testing :=
  C4_theorem.1 adminDemo pDeployedDemo Status.testing none 50 (by decide)

/-- Claim C2: every successful status transition appends exactly one
status-update entry authored by the acting user; the status route sets
timeline.actualEnd to the current time exactly when the new status is
deployed and leaves the timeline untouched otherwise, and the other two
status-changing operations never touch the timeline. -/
theorem C2_theorem :
    (∀ a p s notes now q, updateStatus a p s notes now = (q, none) →
      (∃ e, q.communication = p.communication ++ [e] ∧
        e.type = CommType.statusUpdate ∧ e.author = a.id) ∧
      (s = Status.deployed →
        q.timeline = { p.timeline with actualEnd := some now }) ∧
      (s ≠ Status.deployed → q.timeline = p.timeline)) ∧
    (∀ a p dev now q, assignDeveloper a p dev now = (q, none) →
      (∃ e, q.communication = p.communication ++ [e] ∧
        e.type = CommType.statusUpdate ∧ e.author = a.id) ∧
      q.timeline = p.timeline) ∧
    (∀ a p st amt now q, confirmPayment a p st amt now = (q, none) →
      (∃ e, q.communication = p.communication ++ [e] ∧
        e.type = CommType.statusUpdate ∧ e.author = a.id) ∧
      q.timeline = p.timeline) := by
  refine ⟨?_, ?_, ?_⟩
  · intro a p s notes now q h
    unfold updateStatus at h
    split_ifs at h with h1 h2 h3
    all_goals injection h with hq hn
    all_goals try exact Option.noConfusion hn
    all_goals subst hq
    · exact ⟨⟨_, rfl, rfl, rfl⟩, fun _ => rfl, fun hs => absurd h3 hs⟩
    · exact ⟨⟨_, rfl, rfl, rfl⟩, fun hs => absurd hs h3, fun _ => rfl⟩
  · intro a p dev now q h
    unfold assignDeveloper at h
    split_ifs at h with h1 h2
    all_goals injection h with hq hn
    all_goals try exact Option.noConfusion hn
    all_goals subst hq
    exact ⟨⟨_, rfl, rfl, rfl⟩, rfl⟩
  · intro a p st amt now q h
    unfold confirmPayment at h
    split_ifs at h with h1 h2
    all_goals injection h with hq hn
    all_goals try exact Option.noConfusion hn
    all_goals subst hq
    exact ⟨⟨_, rfl, rfl, rfl⟩, rfl⟩

/-- Claim C2, witness: an admin deploying pDemo at time 42 stamps
timeline.actualEnd with 42. -/
theorem C2_witness :
    (updateStatus adminDemo pDemo Status.deployed none 42).1.timeline.actualEnd = some 42 := by
  have h := (C2_theorem.1 adminDemo pDemo Status.deployed none 42
      (updateStatus adminDemo pDemo Status.deployed none 42).1 rfl).2.1 rfl
  rw [h]

/-- Request body exercising the frame property of the owner
field-update route: it supplies a new title together with values for
status, owner, assignedDeveloper and the communication thread, none of
which the handler reads. -/
def bodyDemo : UpdateBody :=
  { title := some "New title", description := none, category := none,
    platform := none, features := none, design := none, technical := none,
    timeline := none, budget := none, status := some Status.deployed,
    owner := some 99, assignedDeveloper := some (some 9),
    communication := some [] }

/-- Claim C9: the owner field-update operation succeeds for the owner and
applies exactly the nine allow-listed fields; status, owner,
assignedDeveloper, the communication thread and the identity are left
unchanged whatever the body supplies for them. -/
theorem C9_theorem :
    ∀ a p b, p.owner = a.id →
      (updateProjectFields a p b).2 = none ∧
      (updateProjectFields a p b).1.status = p.status ∧
      (updateProjectFields a p b).1.owner = p.owner ∧
      (updateProjectFields a p b).1.assignedDeveloper = p.assignedDeveloper ∧
      (updateProjectFields a p b).1.communication = p.communication ∧
      (updateProjectFields a p b).1.id = p.id ∧
      (updateProjectFields a p b).1.title = b.title.getD p.title ∧
      (updateProjectFields a p b).1.description = b.description.getD p.description ∧
      (updateProjectFields a p b).1.category = b.category.getD p.category ∧
      (updateProjectFields a p b).1.platform = b.platform.getD p.platform ∧
      (updateProjectFields a p b).1.features = b.features.getD p.features ∧
      (updateProjectFields a p b).1.design = b.design.getD p.design ∧
      (updateProjectFields a p b).1.technical = b.technical.getD p.technical ∧
      (updateProjectFields a p b).1.timeline = b.timeline.getD p.timeline ∧
      (updateProjectFields a p b).1.budget = b.budget.getD p.budget := by
  intro a p b h
  simp [updateProjectFields, h]

/-- Claim C9, witness: a body smuggling status, owner, assignedDeveloper
and communication values changes none of them while the supplied title is
applied. -/
theorem C9_witness :
    (updateProjectFields ownerDemo pDemo bodyDemo).1.status = pDemo.status ∧
    (updateProjectFields ownerDemo pDemo bodyDemo).1.owner = pDemo.owner ∧
    (updateProjectFields ownerDemo pDemo bodyDemo).1.title =
      bodyDemo.title.getD pDemo.title := by
  have h := C9_theorem ownerDemo pDemo bodyDemo (by decide)
  exact ⟨h.2.1, h.2.2.1, h.2.2.2.2.2.2.1⟩

set_option maxRecDepth 4096

/-- Claim C8: feature suggestion is a fixed function of the prompt and
category; the login-and-dashboard prompt yields exactly the fixed
authentication feature followed by the fixed dashboard feature, and a
prompt matching no keyword group yields exactly the two fixed fallback
features. -/
theorem C8_theorem :
    generateFeatures "I need user login and a dashboard" "web-app" =
      [authFeature, dashboardFeature] ∧
    generateFeatures "hello" "web-app" =
      [basicDashboardFeature, userManagementFeature] := by
  constructor <;> decide

/-- Claim C7 description of avatar derivation in the words of the spec,
with the single-token rule as amended: when the trimmed name has at least
two space-separated tokens, the initials are the uppercased first letter
of the first token followed by the first letter of the last token;
otherwise they are the first two characters of the trimmed name (the
whole of it when shorter), uppercased; the color is chosen from the fixed
8-color palette by the rolling hash of the name. -/
def avatarSpec (name : String) : Option Avatar :=
  if name = "" then none
  else
    let tokens := jsSplitSpace (jsTrim name.data)
    let initials : String :=
      if 2 ≤ tokens.length then
        ⟨jsToUpper ((tokens.headD []).take 1 ++ (tokens.getLastD []).take 1)⟩
      else ⟨jsToUpper ((jsTrim name.data).take 2)⟩
    some { initials := initials,
           color := avatarColors.getD ((nameHash name).natAbs % 8) "" }

/-- Claim C7, counterexample: on the one-character single-token name X
the derivation yields one-character initials, not a 2-character
fallback. -/
theorem C7_counterexample :
    generateAvatarDataUrl "X" = some { initials := "X", color := "#8b5cf6" } ∧
    ¬ (∀ a, generateAvatarDataUrl "X" = some a → a.initials.length = 2) := by
  constructor
  · decide
  · intro h
    exact absurd (h { initials := "X", color := "#8b5cf6" } (by decide)) (by decide)

/-- Claim C7, amended: avatar derivation is a fixed function of the name
agreeing with the spec description once the single-token rule reads
first-two-characters-or-fewer; concretely, Ada Lovelace always yields the
initials AL on palette color 5, and the single-token X yields the
1-character initials X. -/
theorem C7_theorem :
    (∀ name, generateAvatarDataUrl name = avatarSpec name) ∧
    generateAvatarDataUrl "Ada Lovelace" =
      some { initials := "AL", color := "#6366f1" } ∧
    generateAvatarDataUrl "X" = some { initials := "X", color := "#8b5cf6" } := by
  refine ⟨fun name => rfl, by decide, by decide⟩

/-- Project with a 5-message thread (timestamps 10, 30, 20, 50, 40) plus
one status-update entry, for instantiating the pagination claim. -/
def chatDemo : Project :=
  { pDemo with communication := [
      ⟨11, CommType.message, "m1", 7, 10, [], []⟩,
      ⟨12, CommType.message, "m2", 5, 30, [], []⟩,
      ⟨13, CommType.message, "m3", 7, 20, [], []⟩,
      ⟨14, CommType.message, "m4", 5, 50, [], []⟩,
      ⟨15, CommType.message, "m5", 7, 40, [], []⟩,
      ⟨16, CommType.statusUpdate, "s", 1, 60, [], []⟩ ] }

/-- Claim C5: a successfully listed page contains only message entries of
the thread, at most limit of them, in ascending timestamp order; and on
the 5-message demo thread, page 1 with limit 2 returns exactly the two
most recent messages in ascending timestamp order. -/
theorem C5_theorem :
    (∀ viewer p page limit l, listMessages viewer p page limit = Except.ok l →
      (∀ e ∈ l, e.type = CommType.message ∧ e ∈ p.communication) ∧
      l.length ≤ limit ∧
      l.Pairwise (fun a b => a.timestamp ≤ b.timestamp)) ∧
    listMessages ownerDemo chatDemo 1 2 =
      Except.ok [⟨15, CommType.message, "m5", 7, 40, [], []⟩,
                 ⟨14, CommType.message, "m4", 5, 50, [], []⟩] := by
  constructor
  · intro viewer p page limit l h
    unfold listMessages at h
    split_ifs at h with h1
    injection h with hl
    subst hl
    refine ⟨?_, ?_, ?_⟩
    · intro e he
      rw [List.mem_reverse] at he
      have he2 := List.take_subset _ _ he
      have he3 := List.drop_subset _ _ he2
      have he4 := (List.perm_insertionSort descByTimestamp _).mem_iff.mp he3
      have he5 := List.mem_filter.mp he4
      exact ⟨by simpa using he5.2, he5.1⟩
    · rw [List.length_reverse]
      exact List.length_take_le _ _
    · have hs : List.Pairwise descByTimestamp
          ((((p.communication.filter fun e => e.type = CommType.message).insertionSort
            descByTimestamp).drop ((page - 1) * limit)).take limit) := by
        apply List.Pairwise.sublist (List.take_sublist _ _)
        apply List.Pairwise.sublist (List.drop_sublist _ _)
        exact List.sorted_insertionSort descByTimestamp _
      exact List.pairwise_reverse.mpr hs
  · rfl

/-- Claim C5, witness: the general theorem applied to the demo page: the
returned page has at most 2 entries and ascending timestamps. -/
theorem C5_witness :
    [(⟨15, CommType.message, "m5", 7, 40, [], []⟩ : Entry),
     ⟨14, CommType.message, "m4", 5, 50, [], []⟩].length ≤ 2 ∧
    [(⟨15, CommType.message, "m5", 7, 40, [], []⟩ : Entry),
     ⟨14, CommType.message, "m4", 5, 50, [], []⟩].Pairwise
      (fun a b => a.timestamp ≤ b.timestamp) := by
  have h := C5_theorem.1 ownerDemo chatDemo 1 2
    [⟨15, CommType.message, "m5", 7, 40, [], []⟩,
     ⟨14, CommType.message, "m4", 5, 50, [], []⟩] (by rfl)
  exact ⟨h.2.1, h.2.2⟩

/-- Replacing the entry with a given identity leaves the result of a
lookup by that identity equal to the lookup in the original thread with
the replacement applied, provided the replacement keeps the identity. -/
theorem updateEntry_find? (l : List Entry) (mid : Nat) (f : Entry → Entry)
    (hf : ∀ e, (f e).id = e.id) :
    (updateEntry l mid f).find? (fun e => e.id = mid) =
      (l.find? (fun e => e.id = mid)).map f := by
  induction l with
  | nil => rfl
  | cons e rest ih =>
    by_cases h : e.id = mid
    · rw [updateEntry, if_pos h]
      rw [List.find?_cons_of_pos _ (by simpa [hf] using h)]
      rw [List.find?_cons_of_pos _ (by simpa using h)]
      rfl
    · rw [updateEntry, if_neg h]
      rw [List.find?_cons_of_neg _ (by simpa using h)]
      rw [List.find?_cons_of_neg _ (by simpa using h)]
      exact ih

/-- Applying markRead a second time with the same entry and user leaves
the project state of the first application unchanged, whatever that
first outcome was. -/
theorem markRead_idem :
    ∀ a p mid now now2,
      (markRead a (markRead a p mid now).1 mid now2).1 = (markRead a p mid now).1 := by
  intro a p mid now now2
  by_cases hacc : p.owner = a.id ∨ p.assignedDeveloper = some a.id
  · rcases hfind : p.communication.find? fun e => e.id = mid with _ | msg
    · simp [markRead, hacc, hfind]
    · by_cases hany : (msg.readBy.any fun r => r.user = a.id) = true
      · simp [markRead, hacc, hfind, hany]
      · have h1 : markRead a p mid now =
            ({ p with communication := updateEntry p.communication mid fun e =>
                { e with readBy := e.readBy ++ [⟨a.id, now⟩] } }, none) := by
          simp [markRead, hacc, hfind, hany]
        rw [h1]
        have hfind2 : (updateEntry p.communication mid fun e =>
              { e with readBy := e.readBy ++ [⟨a.id, now⟩] }).find?
                (fun e => e.id = mid) =
            some { msg with readBy := msg.readBy ++ [⟨a.id, now⟩] } := by
          rw [updateEntry_find? p.communication mid
              (fun e => { e with readBy := e.readBy ++ [⟨a.id, now⟩] })
              (fun e => rfl), hfind]
          rfl
        have hany2 : (({ msg with readBy := msg.readBy ++ [⟨a.id, now⟩] } : Entry).readBy.any
            fun r => r.user = a.id) = true := by
          simp
        simp [markRead, hacc, hfind2, hany2]
  · simp [markRead, hacc]

/-- When the acting user already appears in readBy, markRead succeeds and
changes nothing at all. -/
theorem markRead_already :
    ∀ a p mid now msg,
      (p.owner = a.id ∨ p.assignedDeveloper = some a.id) →
      p.communication.find? (fun e => e.id = mid) = some msg →
      (msg.readBy.any fun r => r.user = a.id) = true →
      markRead a p mid now = (p, none) := by
  intro a p mid now msg hacc hfind hany
  simp [markRead, hacc, hfind, hany]

/-- When the acting user is absent from readBy, markRead succeeds and the
entry afterwards carries exactly the old receipts plus one new receipt
for that user at the current time. -/
theorem markRead_append :
    ∀ a p mid now msg,
      (p.owner = a.id ∨ p.assignedDeveloper = some a.id) →
      p.communication.find? (fun e => e.id = mid) = some msg →
      (msg.readBy.any fun r => r.user = a.id) = false →
      (markRead a p mid now).2 = none ∧
      (markRead a p mid now).1.communication.find? (fun e => e.id = mid) =
        some { msg with readBy := msg.readBy ++ [⟨a.id, now⟩] } := by
  intro a p mid now msg hacc hfind hany
  have h1 : markRead a p mid now =
      ({ p with communication := updateEntry p.communication mid fun e =>
          { e with readBy := e.readBy ++ [⟨a.id, now⟩] } }, none) := by
    simp [markRead, hacc, hfind, hany]
  rw [h1]
  refine ⟨rfl, ?_⟩
  rw [show ({ p with communication := updateEntry p.communication mid fun e =>
      { e with readBy := e.readBy ++ [⟨a.id, now⟩] } } : Project).communication =
      updateEntry p.communication mid (fun e =>
        { e with readBy := e.readBy ++ [⟨a.id, now⟩] }) from rfl]
  rw [updateEntry_find? p.communication mid
      (fun e => { e with readBy := e.readBy ++ [⟨a.id, now⟩] })
      (fun e => rfl), hfind]
  rfl

/-- After two markRead calls with the same entry and user, the entry
holds exactly one receipt for that user, starting from any state
respecting the set invariant of readBy. -/
theorem markRead_twice_count :
    ∀ a p mid now now2 msg,
      (p.owner = a.id ∨ p.assignedDeveloper = some a.id) →
      p.communication.find? (fun e => e.id = mid) = some msg →
      msg.readBy.countP (fun r => r.user = a.id) ≤ 1 →
      ∃ msg2,
        (markRead a (markRead a p mid now).1 mid now2).1.communication.find?
          (fun e => e.id = mid) = some msg2 ∧
        msg2.readBy.countP (fun r => r.user = a.id) = 1 := by
  intro a p mid now now2 msg hacc hfind hcount
  rw [markRead_idem]
  by_cases hany : (msg.readBy.any fun r => r.user = a.id) = true
  · rw [markRead_already a p mid now msg hacc hfind hany]
    refine ⟨msg, hfind, ?_⟩
    have hpos : 0 < msg.readBy.countP fun r => r.user = a.id := by
      rw [List.countP_pos_iff]
      simpa using List.any_eq_true.mp hany
    omega
  · have hany2 : (msg.readBy.any fun r => r.user = a.id) = false := by
      simpa using hany
    obtain ⟨-, hfind2⟩ := markRead_append a p mid now msg hacc hfind hany2
    refine ⟨_, hfind2, ?_⟩
    have hz : msg.readBy.countP (fun r => r.user = a.id) = 0 := by
      rw [List.countP_eq_zero]
      intro r hr hx
      exact hany (List.any_eq_true.mpr ⟨r, hr, hx⟩)
    simp [List.countP_append, hz]

/-- Claim C6: markRead is idempotent — a second call with the same entry
and user never changes the state; a call for a user already in readBy
changes nothing and still succeeds; a call for an absent user appends
exactly one receipt; and after two calls the entry carries exactly one
receipt for the user. -/
theorem C6_theorem :
    (∀ a p mid now now2,
      (markRead a (markRead a p mid now).1 mid now2).1 = (markRead a p mid now).1) ∧
    (∀ a p mid now msg,
      (p.owner = a.id ∨ p.assignedDeveloper = some a.id) →
      p.communication.find? (fun e => e.id = mid) = some msg →
      ((msg.readBy.any fun r => r.user = a.id) = true →
        markRead a p mid now = (p, none)) ∧
      ((msg.readBy.any fun r => r.user = a.id) = false →
        (markRead a p mid now).2 = none ∧
        (markRead a p mid now).1.communication.find? (fun e => e.id = mid) =
          some { msg with readBy := msg.readBy ++ [⟨a.id, now⟩] })) ∧
    (∀ a p mid now now2 msg,
      (p.owner = a.id ∨ p.assignedDeveloper = some a.id) →
      p.communication.find? (fun e => e.id = mid) = some msg →
      msg.readBy.countP (fun r => r.user = a.id) ≤ 1 →
      ∃ msg2,
        (markRead a (markRead a p mid now).1 mid now2).1.communication.find?
          (fun e => e.id = mid) = some msg2 ∧
        msg2.readBy.countP (fun r => r.user = a.id) = 1) :=
  ⟨markRead_idem,
   fun a p mid now msg hacc hfind =>
     ⟨markRead_already a p mid now msg hacc hfind,
      markRead_append a p mid now msg hacc hfind⟩,
   markRead_twice_count⟩

/-- Claim C6, witness: the owner of the demo thread marks the first
message read at time 100; the call succeeds and the entry afterwards
carries exactly the one receipt for user 7. -/
theorem C6_witness :
    (markRead ownerDemo chatDemo 11 100).2 = none ∧
    (markRead ownerDemo chatDemo 11 100).1.communication.find?
      (fun e => e.id = 11) =
      some ⟨11, CommType.message, "m1", 7, 10, [], [⟨7, 100⟩]⟩ :=
  (C6_theorem.2.1 ownerDemo chatDemo 11 100
    ⟨11, CommType.message, "m1", 7, 10, [], []⟩
    (by decide) (by rfl)).2 (by rfl)

/-- Creation body whose spread pre-seeds the communication thread with a
message entry, together with an owner value the spread overrides. -/
def seededBody : CreateBody :=
  { title := "Shop", description := "A small shop", category := "web-app",
    owner := some 99, assignedDeveloper := none, platform := none,
    status := none, features := none, design := none, technical := none,
    timeline := none, budget := none,
    communication := some [⟨3, CommType.message, "smuggled", 9, 5, [], []⟩] }

/-- Creation body supplying only the validated fields (and an owner value
the spread overrides), leaving every other field to its default. -/
def plainBody : CreateBody :=
  { title := "Shop", description := "A small shop", category := "web-app",
    owner := some 99, assignedDeveloper := none, platform := none,
    status := none, features := none, design := none, technical := none,
    timeline := none, budget := none, communication := none }

/-- Claim C10, counterexample: the handler spreads the whole request body
into the new document, so one that carries a communication array reaches
the stored project; after creation the thread has two entries, one of
them a message, refuting single-entry and no-message-entry. -/
theorem C10_counterexample :
    (createProject ownerDemo 4 seededBody 60).communication =
      [⟨3, CommType.message, "smuggled", 9, 5, [], []⟩,
       ⟨4, CommType.statusUpdate, "Project created successfully", 7, 60, [], []⟩] ∧
    (createProject ownerDemo 4 seededBody 60).communication.length ≠ 1 ∧
    ¬ (((createProject ownerDemo 4 seededBody 60).communication.all
        fun e => decide (e.type ≠ CommType.message)) = true) := by
  refine ⟨rfl, by decide, by decide⟩

/-- Claim C10, amended: creation always stores the acting user as owner
and appends exactly one status-update entry with content Project created
successfully authored by the owner to whatever thread the body seeded;
when the body supplies no communication the thread afterwards is exactly
that single entry, non-empty and free of message entries. -/
theorem C10_theorem :
    ∀ a pid b now,
      (createProject a pid b now).owner = a.id ∧
      (∃ e, (createProject a pid b now).communication =
          (b.communication.getD []) ++ [e] ∧
        e.type = CommType.statusUpdate ∧
        e.content = "Project created successfully" ∧ e.author = a.id) ∧
      (b.communication = none →
        (createProject a pid b now).communication =
          [{ id := 0, type := CommType.statusUpdate,
             content := "Project created successfully", author := a.id,
             timestamp := now, attachments := [], readBy := [] }] ∧
        (createProject a pid b now).communication ≠ [] ∧
        ((createProject a pid b now).communication.all
          fun e => decide (e.type ≠ CommType.message)) = true) := by
  intro a pid b now
  refine ⟨rfl, ⟨_, rfl, rfl, rfl, rfl⟩, ?_⟩
  intro h
  refine ⟨?_, ?_, ?_⟩ <;> simp [createProject, addCommunication, freshEntryId, h]

/-- Claim C10, witness: the amended theorem applied to a body without a
seeded thread yields exactly the single created status-update entry. -/
theorem C10_witness :
    (createProject ownerDemo 5 plainBody 60).communication =
      [{ id := 0, type := CommType.statusUpdate,
         content := "Project created successfully", author := ownerDemo.id,
         timestamp := 60, attachments := [], readBy := [] }] :=
  ((C10_theorem ownerDemo 5 plainBody 60).2.2 rfl).1
